import Mathlib

/-!
Verification development for the `app-graphql` schema/resolver generator.

The TypeScript sources (`src/lib/GraphQLHelper.ts`, `src/utils/schemaGenerator.ts`,
`src/decorators/index.ts`) are embedded shallowly:

* JSON-like runtime values become the inductive `JsonV`; plain JS objects become
  association lists `Obj` whose property access is `olookup` (first match wins,
  as in a JS object where keys are unique; our lemmas hold for arbitrary lists).
* The JS object-spread `{...a, ...b}` becomes `spreadObj` (keys of `a` keep their
  position, values of `b` override, fresh keys of `b` are appended).
* Each generated resolver closure becomes a pure function from an explicit
  environment (model-class availability, attached metadata, database contents)
  to an `Except`-result paired with the ordered list of ORM calls it performed.
* `undefined`/missing JS values are `Option.none`; JS truthiness of the few
  optionals the code tests is modelled where applicable.
-/

namespace AppGraphQL

/-- JSON-like runtime values flowing through resolvers and filter conditions. -/
inductive JsonV where
  | null
  | bool (b : Bool)
  | num (n : Int)
  | str (s : String)
  deriving DecidableEq, Repr

/-- A plain JS object: ordered key/value pairs (keys unique in real JS objects). -/
abbrev Obj := List (String × JsonV)

/-- JS property access `o[k]`: first binding wins, absence is `undefined` (`none`). -/
def olookup : Obj → String → Option JsonV
  | [], _ => none
  | p :: rest, k => if p.1 = k then some p.2 else olookup rest k

/-- JS object spread `{...a, ...b}`: keys of `a` keep their position but take
`b`'s value when `b` also has the key; keys only in `b` are appended in order. -/
def spreadObj (a b : Obj) : Obj :=
  a.map (fun p => match olookup b p.1 with
    | some v => (p.1, v)
    | none => p)
  ++ b.filter (fun q => (olookup a q.1).isNone)

theorem olookup_append (x y : Obj) (k : String) :
    olookup (x ++ y) k = match olookup x k with
      | some v => some v
      | none => olookup y k := by
  induction x with
  | nil => simp [olookup]
  | cons p rest ih =>
      by_cases h : p.1 = k
      · simp [olookup, h]
      · simp [olookup, h, ih]

theorem olookup_map_override (a b : Obj) (k : String) :
    olookup (a.map (fun p => match olookup b p.1 with
      | some v => (p.1, v)
      | none => p)) k
    = match olookup a k with
      | none => none
      | some v => some (match olookup b k with
        | some w => w
        | none => v) := by
  induction a with
  | nil => simp [olookup]
  | cons p rest ih =>
      by_cases h : p.1 = k
      · subst h
        cases hb : olookup b p.1 <;> simp [olookup, hb]
      · cases hb : olookup b p.1 <;> simp [olookup, h, hb, ih]

theorem olookup_filter_of_not_in (a b : Obj) (k : String)
    (ha : olookup a k = none) :
    olookup (b.filter (fun q => (olookup a q.1).isNone)) k = olookup b k := by
  induction b with
  | nil => simp
  | cons q rest ih =>
      by_cases h : q.1 = k
      · subst h
        simp [List.filter, ha, olookup]
      · cases hq : (olookup a q.1).isNone <;>
          simp [List.filter, hq, olookup, h, ih]

/-- Lookup after a JS spread: a key present in `b` resolves to `b`'s value
(hook keys win); otherwise `a`'s value survives. -/
theorem olookup_spreadObj (a b : Obj) (k : String) :
    olookup (spreadObj a b) k = match olookup b k with
      | some v => some v
      | none => olookup a k := by
  unfold spreadObj
  rw [olookup_append, olookup_map_override]
  cases ha : olookup a k with
  | some v => cases hb : olookup b k <;> simp [hb]
  | none =>
      rw [olookup_filter_of_not_in a b k ha]
      cases hb : olookup b k <;> simp [hb, ha]

/-! ## Decorator metadata (`src/decorators/index.ts`) -/

/-- The Express request object, opaque to this subsystem. -/
abbrev Request := String

/-- Embeds `AuthOperation` tag handed to the auth hook. -/
inductive AuthOperation where
  | query
  | create
  | update
  | delete
  deriving DecidableEq, Repr

/-- A hook may return a legacy boolean or a structured `AuthResult`
`{success, where?, allowedOperations?}`. -/
inductive AuthOutcome where
  | legacy (b : Bool)
  | result (success : Bool) (whereC : Option Obj) (allowedOperations : Option (List String))

/-- Embeds `authHandler: (req, where, operation) => AuthResult | boolean`. -/
abbrev AuthHandler := Request → Obj → AuthOperation → AuthOutcome

/-- Embeds `operations?: {query?, mutation?, subscription?}` — absent sub-flags are
falsy, modelled as `false` defaults. -/
structure OperationsConfig where
  query : Bool := false
  mutation : Bool := false
  subscription : Bool := false
  deriving DecidableEq, Repr

/-- Per-field decorator configuration `GQLFieldConfig` (the `resolver` function
member is only consulted for custom fields, outside the claims' scope). -/
structure GQLFieldConfig where
  type : Option String := none
  nullable : Option Bool := none
  list : Option Bool := none
  description : Option String := none
  exclude : Bool := false
  customType : Option String := none
  operations : Option OperationsConfig := none
  deriving DecidableEq, Repr

/-- Model-level decorator configuration `GQLModelConfig`. -/
structure GQLModelConfig where
  typeName : Option String := none
  description : Option String := none
  exclude : Bool := false
  operations : Option OperationsConfig := none
  customFields : List (String × GQLFieldConfig) := []
  excludeFields : Option (List String) := none
  authRequired : Bool := false
  authHandler : Option AuthHandler := none

/-! ## Resolver closures of `GraphQLHelper` (`src/lib/GraphQLHelper.ts`) -/

/-- One ORM invocation performed by a resolver, with the arguments it received. -/
inductive OrmCall where
  | findOne (whereC : Obj)
  | findAll (whereC : Obj) (limit offset : Option Int) (order : Option String)
  | create (payload : Option Obj)
  | update (payload : Obj)
  | destroy
  deriving DecidableEq, Repr

/-- A database row (already serialized; `toJSON` is the identity here). -/
abbrev Row := Obj

/-- A `where` object matches a row when every pair agrees with the row. -/
def rowMatches (whereC : Obj) (row : Row) : Bool :=
  whereC.all (fun p => olookup row p.1 == some p.2)

/-- Embeds `ModelClass.findOne({where})` over an explicit table. -/
def findOneDb (db : List Row) (whereC : Obj) : Option Row :=
  db.find? (rowMatches whereC)

/-- Environment a generated resolver closure runs in: whether `getModelClass`
finds the class, the metadata attached at registration, and the table. -/
structure ResolverEnv where
  modelClassFound : Bool
  cfg : Option GQLModelConfig
  db : List Row

/-- The authorization block duplicated in the query/list/update/delete
resolvers: fail closed on a missing hook, support legacy boolean results,
and shallow-merge a structured result's `where` into the conditions. -/
def applyAuth (cfg : Option GQLModelConfig) (req : Request) (conds : Obj)
    (op : AuthOperation) : Except String Obj :=
  match cfg with
  | none => .ok conds
  | some c =>
    if c.authRequired then
      match c.authHandler with
      | none => .error "Access denied"
      | some handler =>
        match handler req conds op with
        | .legacy b => if b then .ok conds else .error "Access denied"
        | .result success whereC _ =>
          if success then
            match whereC with
            | some w => .ok (spreadObj conds w)
            | none => .ok conds
          else .error "Access denied"
    else .ok conds

/-- The authorization block of the create resolver: the hook receives the
`input` object as conditions and only `success` is consulted. -/
def createAuthCheck (cfg : Option GQLModelConfig) (req : Request)
    (input : Obj) : Except String Unit :=
  match cfg with
  | none => .ok ()
  | some c =>
    if c.authRequired then
      match c.authHandler with
      | none => .error "Access denied"
      | some handler =>
        match handler req input .create with
        | .legacy b => if b then .ok () else .error "Access denied"
        | .result success _ _ =>
          if success then .ok () else .error "Access denied"
    else .ok ()

/-- Embeds `generateQueryResolver`: single fetch by id via `findOne({where})`. -/
def queryResolver (env : ResolverEnv) (req : Request) (id : String) :
    Except String (Option Row) × List OrmCall :=
  if env.modelClassFound = false then (.ok none, [])
  else
    let whereConditions : Obj := [("id", .str id)]
    match applyAuth env.cfg req whereConditions .query with
    | .error e => (.error e, [])
    | .ok w => (.ok (findOneDb env.db w), [.findOne w])

/-- JS truthiness filter for `if (limit) options.limit = limit`. -/
def truthyInt (o : Option Int) : Option Int :=
  match o with
  | some n => if n = 0 then none else some n
  | none => none

/-- JS truthiness filter for `if (order) options.order = order`. -/
def truthyStr (o : Option String) : Option String :=
  match o with
  | some s => if s = "" then none else some s
  | none => none

/-- Embeds `generateListQueryResolver`: `findAll` with caller `where` (absent `where`
modelled as the empty object), auth merge, limit/offset/order pass-through. -/
def listQueryResolver (env : ResolverEnv) (req : Request) (whereArg : Obj)
    (limit offset : Option Int) (order : Option String) :
    Except String (List Row) × List OrmCall :=
  if env.modelClassFound = false then (.ok [], [])
  else
    match applyAuth env.cfg req whereArg .query with
    | .error e => (.error e, [])
    | .ok w =>
        let results := (env.db.filter (rowMatches w))
        (.ok results,
         [.findAll w (truthyInt limit) (truthyInt offset) (truthyStr order)])

/-- Embeds `generateCreateMutationResolver`. The source destructures `input` from the
arguments, declares `let _input = null`, passes `input` to the auth hook, and
then calls `ModelClass.create(_input)` — `_input` is never reassigned. The
created instance is modelled by the payload handed to `create`. -/
def createMutationResolver (env : ResolverEnv) (req : Request) (input : Obj) :
    Except String (Option Obj) × List OrmCall :=
  if env.modelClassFound = false then (.ok none, [])
  else
    let uInput : Option Obj := none
    match createAuthCheck env.cfg req input with
    | .error e => (.error e, [])
    | .ok _ => (.ok uInput, [.create uInput])

/-- Embeds `generateUpdateMutationResolver`: `findOne({where})`, `null` when absent,
else `instance.update(input)` returning the live instance. -/
def updateMutationResolver (env : ResolverEnv) (req : Request) (id : String)
    (input : Obj) : Except String (Option Row) × List OrmCall :=
  if env.modelClassFound = false then (.ok none, [])
  else
    let whereConditions : Obj := [("id", .str id)]
    match applyAuth env.cfg req whereConditions .update with
    | .error e => (.error e, [])
    | .ok w =>
        match findOneDb env.db w with
        | none => (.ok none, [.findOne w])
        | some row => (.ok (some (spreadObj row input)), [.findOne w, .update input])

/-- Embeds `generateDeleteMutationResolver`: `findOne({where})`, `false` when absent,
else `instance.destroy()` and `true`. -/
def deleteMutationResolver (env : ResolverEnv) (req : Request) (id : String) :
    Except String Bool × List OrmCall :=
  if env.modelClassFound = false then (.ok false, [])
  else
    let whereConditions : Obj := [("id", .str id)]
    match applyAuth env.cfg req whereConditions .delete with
    | .error e => (.error e, [])
    | .ok w =>
        match findOneDb env.db w with
        | none => (.ok false, [.findOne w])
        | some _ => (.ok true, [.findOne w, .destroy])

/-- Embeds `generateFieldResolvers` of `GraphQLHelper`: the association resolver
returns `parent[assocName]` unconditionally ("For now, return the related
data if it's already loaded"). -/
def helperAssocResolver (assocName : String) (parent : Obj) : Option JsonV :=
  olookup parent assocName

/-! ## Model registration and schema generation (`GraphQLHelper`) -/

/-- Generic association-list lookup (JS `Map.get` / record access). -/
def alookup {α : Type} : List (String × α) → String → Option α
  | [], _ => none
  | p :: rest, k => if p.1 = k then some p.2 else alookup rest k

/-- JS `Map.set`: replace in place when the key exists, else append. -/
def mapSet {α : Type} : List (String × α) → String → α → List (String × α)
  | [], k, v => [(k, v)]
  | p :: rest, k, v => if p.1 = k then (k, v) :: rest else p :: mapSet rest k v

/-- JS `Set.add`: add the element when absent. -/
def setAdd (l : List String) (x : String) : List String :=
  if l.contains x then l else l ++ [x]

/-- A Sequelize attribute descriptor: `attr.type?.key` (falling back to the
constructor name) and the `allowNull` flag, which may be absent. -/
structure AttrDef where
  typeKey : Option String := none
  allowNull : Option Bool := none
  deriving DecidableEq, Repr

/-- A Sequelize association descriptor: `assoc.target?.name` and
`assoc.associationType`. -/
structure AssocDef where
  targetName : Option String := none
  associationType : String := ""
  deriving DecidableEq, Repr

/-- The normalized model record `addModel` stores (`SequelizeModel` in
`src/lib/types.ts`). -/
structure SequelizeModel where
  name : String
  attributes : List (String × AttrDef)
  associations : List (String × AssocDef)
  tableName : String
  primaryKeyAttribute : String

/-- A raw model class as handed to `addModel`: reflection metadata is present
exactly when the `@GQLModel` decorator ran on the class. -/
structure ModelInput where
  name : String
  rawAttributes : List (String × AttrDef) := []
  associations : List (String × AssocDef) := []
  tableName : Option String := none
  primaryKeyAttribute : Option String := none
  metadata : Option GQLModelConfig := none
  fieldConfigs : List (String × GQLFieldConfig) := []

/-- Embeds `getGQLModelMetadata`: `Reflect.getMetadata(...) || {}` — a class without
the decorator yields the empty (all-default) configuration object. -/
def getGQLModelMetadata (m : ModelInput) : GQLModelConfig :=
  m.metadata.getD {}

/-- Embeds `getGQLFields`: `Reflect.getMetadata(...) || {}`. -/
def getGQLFields (m : ModelInput) : List (String × GQLFieldConfig) :=
  m.fieldConfigs

/-- Custom query handler (its resolver function is carried separately in the
resolver map; only the schema-facing fields matter here). -/
structure GraphQLQueryHandler where
  name : String
  type : String
  description : Option String := none

/-- Custom mutation handler. -/
structure GraphQLMutationHandler where
  name : String
  inputType : Option String := none
  outputType : String
  description : Option String := none

/-- Custom subscription handler. -/
structure GraphQLSubscriptionHandler where
  name : String
  type : String
  description : Option String := none

/-- The key structure of a custom resolver object merged by
`generateResolvers` (the resolver functions themselves are opaque). -/
structure ResolverObjKeys where
  queryKeys : List String := []
  mutationKeys : List String := []
  subscriptionKeys : List String := []
  typeEntries : List (String × List String) := []

/-- The mutable state of a `GraphQLHelper` instance. -/
structure HelperState where
  models : List (String × SequelizeModel) := []
  customResolvers : List ResolverObjKeys := []
  customTypes : List String := []
  customQueries : List GraphQLQueryHandler := []
  customMutations : List GraphQLMutationHandler := []
  customSubscriptions : List GraphQLSubscriptionHandler := []
  blackList : List String := []
  whiteList : List String := []
  modelMetadata : List (String × (GQLModelConfig × List (String × GQLFieldConfig))) := []

/-- Embeds `addModel`. The source's skip test is
`if (!modelConfig || modelConfig.exclude)`, but `getGQLModelMetadata` falls
back to `{}` (a truthy object), so `!modelConfig` can never fire and only
`exclude` decides whether the model is skipped. -/
def addModel (st : HelperState) (m : ModelInput) : HelperState :=
  if st.blackList.contains m.name then st
  else
    let modelConfig := getGQLModelMetadata m
    let fieldConfigs := getGQLFields m
    if modelConfig.exclude then st
    else
      let sm : SequelizeModel :=
        { name := m.name
          attributes := m.rawAttributes
          associations := m.associations
          tableName := m.tableName.getD m.name.toLower
          primaryKeyAttribute := m.primaryKeyAttribute.getD "id" }
      { st with
          models := mapSet st.models m.name sm
          modelMetadata := mapSet st.modelMetadata m.name (modelConfig, fieldConfigs) }

/-- Embeds `addToBlackList`. -/
def addToBlackList (st : HelperState) (pat : String) : HelperState :=
  { st with blackList := setAdd st.blackList pat }

/-- Embeds `addToWhiteList`. -/
def addToWhiteList (st : HelperState) (name : String) : HelperState :=
  { st with whiteList := setAdd st.whiteList name }

/-- Embeds `isFieldBlacklisted`: exact `Model.field`, bare `field`, or bare `Model`. -/
def isFieldBlacklisted (blackList : List String) (modelName fieldName : String) : Bool :=
  blackList.contains (modelName ++ "." ++ fieldName) ||
  blackList.contains fieldName ||
  blackList.contains modelName

/-- The fixed scalar lookup table of
`convertSequelizeAttributeToGraphQLField`. -/
def helperTypeMap : List (String × String) :=
  [("STRING", "String"), ("TEXT", "String"), ("INTEGER", "Int"),
   ("BIGINT", "String"), ("FLOAT", "Float"), ("DOUBLE", "Float"),
   ("DECIMAL", "Float"), ("BOOLEAN", "Boolean"), ("DATE", "String"),
   ("DATEONLY", "String"), ("TIME", "String"), ("JSON", "String"),
   ("UUID", "String")]

/-- The generated-field record (`GraphQLFieldType` in `src/lib/types.ts`). -/
structure GraphQLFieldType where
  name : String
  type : String
  isNullable : Bool
  isList : Bool
  isRelation : Bool
  relationType : Option String := none
  relatedModel : Option String := none
  deriving DecidableEq, Repr

/-- Embeds `convertSequelizeAttributeToGraphQLField`: scalar mapping with `String`
fallback; explicit `nullable` wins, else `attr.allowNull !== false`;
`fieldConfig?.list || false`. -/
def convertSequelizeAttributeToGraphQLField (name : String) (attr : AttrDef)
    (fieldConfig : Option GQLFieldConfig) : GraphQLFieldType :=
  let sequelizeType := attr.typeKey.getD "STRING"
  let graphQLType := (alookup helperTypeMap sequelizeType).getD "String"
  let isNullable :=
    match fieldConfig.bind (fun fc => fc.nullable) with
    | some b => b
    | none => !(attr.allowNull == some false)
  let isList := (fieldConfig.bind (fun fc => fc.list)).getD false
  { name := name, type := graphQLType, isNullable := isNullable,
    isList := isList, isRelation := false }

/-- Embeds `convertSequelizeAssociationToGraphQLField`: `null` without a target model;
explicit `list`/`nullable` win, else `HasMany`/`BelongsToMany` are lists and
`BelongsTo` is non-null while every other kind is nullable. -/
def convertSequelizeAssociationToGraphQLField (name : String) (assoc : AssocDef)
    (fieldConfig : Option GQLFieldConfig) : Option GraphQLFieldType :=
  match assoc.targetName with
  | none => none
  | some targetModel =>
    let isList :=
      match fieldConfig.bind (fun fc => fc.list) with
      | some b => b
      | none =>
          assoc.associationType == "HasMany" ||
          assoc.associationType == "BelongsToMany"
    let isNullable :=
      match fieldConfig.bind (fun fc => fc.nullable) with
      | some b => b
      | none => !(assoc.associationType == "BelongsTo")
    some { name := name, type := targetModel, isNullable := isNullable,
           isList := isList, isRelation := true,
           relationType := some assoc.associationType,
           relatedModel := some targetModel }

/-- Embeds `extractModelFields`: attributes then associations, each skipped when
blacklisted or when its field config sets `exclude`. -/
def extractModelFields (st : HelperState) (model : SequelizeModel) :
    List GraphQLFieldType :=
  let fieldConfigs :=
    match alookup st.modelMetadata model.name with
    | some m => m.2
    | none => []
  let attrFields := model.attributes.filterMap (fun p =>
    if isFieldBlacklisted st.blackList model.name p.1 then none
    else
      let fc := alookup fieldConfigs p.1
      if (fc.map (fun c => c.exclude)).getD false then none
      else some (convertSequelizeAttributeToGraphQLField p.1 p.2 fc))
  let assocFields := model.associations.filterMap (fun p =>
    if isFieldBlacklisted st.blackList model.name p.1 then none
    else
      let fc := alookup fieldConfigs p.1
      if (fc.map (fun c => c.exclude)).getD false then none
      else convertSequelizeAssociationToGraphQLField p.1 p.2 fc)
  attrFields ++ assocFields

/-- Fields rendered into `type Model { ... }` by `generateModelType`
(the loop re-checks the blacklist before emitting a line). -/
def modelTypeFields (st : HelperState) (model : SequelizeModel) :
    List GraphQLFieldType :=
  (extractModelFields st model).filter
    (fun f => !(isFieldBlacklisted st.blackList model.name f.name))

/-- Fields rendered into `input ModelInput { ... }` by
`generateModelInputType` (blacklisted and relation fields are skipped). -/
def modelInputFields (st : HelperState) (model : SequelizeModel) :
    List GraphQLFieldType :=
  (extractModelFields st model).filter
    (fun f => !(isFieldBlacklisted st.blackList model.name f.name) && !f.isRelation)

/-- Render a field's type with list/non-null modifiers. -/
def renderFieldType (f : GraphQLFieldType) : String :=
  let t := if f.isList then "[" ++ f.type ++ "]" else f.type
  if f.isNullable then t else t ++ "!"

/-- A single field line (with optional description) of a type or input body. -/
def fieldLine (fieldConfigs : List (String × GQLFieldConfig))
    (f : GraphQLFieldType) : String :=
  (match (alookup fieldConfigs f.name).bind (fun c => c.description) with
   | some d => "  \"\"\"" ++ d ++ "\"\"\"\n"
   | none => "") ++
  "  " ++ f.name ++ ": " ++ renderFieldType f ++ "\n"

/-- Embeds `generateModelType`: optional description header (with the
authentication note) followed by the field lines. -/
def generateModelType (st : HelperState) (model : SequelizeModel) : String :=
  let metadata := alookup st.modelMetadata model.name
  let modelConfig := metadata.map (fun m => m.1)
  let fieldConfigs := (metadata.map (fun m => m.2)).getD []
  let authReq := (modelConfig.map (fun c => c.authRequired)).getD false
  let header :=
    match modelConfig.bind (fun c => c.description) with
    | some d =>
        "\"\"\"" ++ d ++
        (if authReq then " (Requires authentication)" else "") ++ "\"\"\"\n"
    | none => if authReq then "\"\"\"Requires authentication\"\"\"\n" else ""
  header ++ "type " ++ model.name ++ " \x7b\n" ++
    String.join ((modelTypeFields st model).map (fieldLine fieldConfigs)) ++
    "\x7d\n"

/-- Embeds `generateModelInputType`. -/
def generateModelInputType (st : HelperState) (model : SequelizeModel) : String :=
  let fieldConfigs :=
    match alookup st.modelMetadata model.name with
    | some m => m.2
    | none => []
  "input " ++ model.name ++ "Input \x7b\n" ++
    String.join ((modelInputFields st model).map (fieldLine fieldConfigs)) ++
    "\x7d\n"

/-- The whitelist test every generation loop performs:
`whiteList.size > 0 && !whiteList.has(name)` skips the model. -/
def whitelistPass (st : HelperState) (name : String) : Bool :=
  st.whiteList.isEmpty || st.whiteList.contains name

/-- The models every generation loop (types, inputs, root operations,
resolvers) iterates: registered models passing the whitelist. -/
def generatedModels (st : HelperState) : List (String × SequelizeModel) :=
  st.models.filter (fun p => whitelistPass st p.1)

/-- Embeds `modelConfig?.operations || {query:true, mutation:true, subscription:true}`
as computed by both `generateRootTypes` and `generateResolvers`. -/
def effectiveOperations (st : HelperState) (name : String) : OperationsConfig :=
  match alookup st.modelMetadata name with
  | some m => m.1.operations.getD ⟨true, true, true⟩
  | none => ⟨true, true, true⟩

/-- Embeds `modelName.charAt(0).toLowerCase() + modelName.slice(1)`. -/
def lowerFirst (s : String) : String :=
  match s.data with
  | [] => ""
  | c :: rest => String.mk (Char.toLower c :: rest)

/-- The root `Query` lines contributed by one model. -/
def modelQueryFieldsStr (st : HelperState) (modelName : String) : String :=
  let operations := effectiveOperations st modelName
  let queryName := lowerFirst modelName
  if operations.query then
    "  " ++ queryName ++ "(id: String!): " ++ modelName ++ "\n" ++
    "  " ++ queryName ++
      "List(where: JSON, limit: Int, offset: Int, order: String): [" ++
      modelName ++ "]\n"
  else ""

/-- The root `Mutation` lines contributed by one model. -/
def modelMutationFieldsStr (st : HelperState) (modelName : String) : String :=
  let operations := effectiveOperations st modelName
  if operations.mutation then
    "  create" ++ modelName ++ "(input: " ++ modelName ++ "Input!): " ++
      modelName ++ "\n" ++
    "  update" ++ modelName ++ "(id: String!, input: " ++ modelName ++
      "Input!): " ++ modelName ++ "\n" ++
    "  delete" ++ modelName ++ "(id: String!): Boolean\n"
  else ""

/-- The root `Subscription` lines contributed by one model. -/
def modelSubscriptionFieldsStr (st : HelperState) (modelName : String) : String :=
  let operations := effectiveOperations st modelName
  let queryName := lowerFirst modelName
  if operations.subscription then
    "  " ++ queryName ++ "Created: " ++ modelName ++ "\n" ++
    "  " ++ queryName ++ "Updated: " ++ modelName ++ "\n" ++
    "  " ++ queryName ++ "Deleted(id: String!): " ++ modelName ++ "\n"
  else ""

/-- One custom query's root line (optional description first). -/
def customQueryLine (q : GraphQLQueryHandler) : String :=
  (match q.description with
   | some d => "  \"\"\"" ++ d ++ "\"\"\"\n"
   | none => "") ++ "  " ++ q.name ++ ": " ++ q.type ++ "\n"

/-- One custom mutation's root line. -/
def customMutationLine (m : GraphQLMutationHandler) : String :=
  (match m.description with
   | some d => "  \"\"\"" ++ d ++ "\"\"\"\n"
   | none => "") ++
  "  " ++ m.name ++
  (match m.inputType with
   | some t => "(input: " ++ t ++ "!)"
   | none => "") ++ ": " ++ m.outputType ++ "\n"

/-- One custom subscription's root line. -/
def customSubscriptionLine (s : GraphQLSubscriptionHandler) : String :=
  (match s.description with
   | some d => "  \"\"\"" ++ d ++ "\"\"\"\n"
   | none => "") ++ "  " ++ s.name ++ ": " ++ s.type ++ "\n"

/-- Embeds `generateRootTypes`: per-model operation fields (whitelist applied)
followed by custom entries, wrapped in the root type template. -/
def generateRootTypes (st : HelperState) : String :=
  let queryFields :=
    String.join ((generatedModels st).map (fun p => modelQueryFieldsStr st p.1)) ++
    String.join (st.customQueries.map customQueryLine)
  let mutationFields :=
    String.join ((generatedModels st).map (fun p => modelMutationFieldsStr st p.1)) ++
    String.join (st.customMutations.map customMutationLine)
  let subscriptionFields :=
    String.join ((generatedModels st).map (fun p => modelSubscriptionFieldsStr st p.1)) ++
    String.join (st.customSubscriptions.map customSubscriptionLine)
  "\n            type Query \x7b\n" ++ queryFields ++
  "\n            \x7d\n            type Mutation \x7b\n" ++ mutationFields ++
  "\n            \x7d\n            type Subscription \x7b\n" ++ subscriptionFields ++
  "\n            \x7d\n        "

/-- Embeds `generateTypeDefs`: JSON scalar, custom types, model types, input types,
root types — model loops all filtered by the whitelist. -/
def generateTypeDefs (st : HelperState) : String :=
  "scalar JSON\n\n" ++
  String.join (st.customTypes.map (fun t => t ++ "\n")) ++
  String.join ((generatedModels st).map (fun p => generateModelType st p.2 ++ "\n")) ++
  String.join ((generatedModels st).map (fun p => generateModelInputType st p.2 ++ "\n")) ++
  generateRootTypes st

/-- Association resolver names `generateFieldResolvers` installs for a model. -/
def fieldResolverNames (st : HelperState) (model : SequelizeModel) : List String :=
  (model.associations.filter
    (fun p => !(isFieldBlacklisted st.blackList model.name p.1))).map (fun p => p.1)

/-- The `Query` keys one model contributes to the resolver map. -/
def modelQueryKeys (st : HelperState) (modelName : String) : List String :=
  if (effectiveOperations st modelName).query then
    [lowerFirst modelName, lowerFirst modelName ++ "List"]
  else []

/-- The `Mutation` keys one model contributes to the resolver map. -/
def modelMutationKeys (st : HelperState) (modelName : String) : List String :=
  if (effectiveOperations st modelName).mutation then
    ["create" ++ modelName, "update" ++ modelName, "delete" ++ modelName]
  else []

/-- The key structure of the resolver map built by `generateResolvers`:
per-model CRUD keys (whitelist applied), then custom resolvers, then custom
query/mutation/subscription handlers. No per-model subscription resolver is
ever installed — `resolvers.Subscription` receives only custom entries. -/
structure ResolverKeys where
  queryKeys : List String
  mutationKeys : List String
  subscriptionKeys : List String
  typeEntries : List (String × List String)

/-- Embeds `generateResolvers`, restricted to the keys it installs. -/
def generateResolverKeys (st : HelperState) : ResolverKeys :=
  let ms := generatedModels st
  { queryKeys :=
      ((ms.map (fun p => modelQueryKeys st p.1)).flatten) ++
      ((st.customResolvers.map (fun r => r.queryKeys)).flatten) ++
      st.customQueries.map (fun q => q.name)
    mutationKeys :=
      ((ms.map (fun p => modelMutationKeys st p.1)).flatten) ++
      ((st.customResolvers.map (fun r => r.mutationKeys)).flatten) ++
      st.customMutations.map (fun m => m.name)
    subscriptionKeys :=
      ((st.customResolvers.map (fun r => r.subscriptionKeys)).flatten) ++
      st.customSubscriptions.map (fun s => s.name)
    typeEntries :=
      ms.map (fun p => (p.1, fieldResolverNames st p.2)) ++
      ((st.customResolvers.map (fun r => r.typeEntries)).flatten) }

/-- Embeds `getSchema`: compute type definitions and resolvers; the helper state
(`this`) is not mutated by generation. -/
def getSchema (st : HelperState) : (String × ResolverKeys) × HelperState :=
  ((generateTypeDefs st, generateResolverKeys st), st)

/-! ## `GraphQLSchemaGenerator` (`src/utils/schemaGenerator.ts`) -/

/-- The scalar lookup table of `schemaGenerator.ts` (note: `BIGINT ↦ Int`,
`JSON/JSONB ↦ JSON`, unlike the helper's table). -/
def sgTypeMap : List (String × String) :=
  [("STRING", "String"), ("TEXT", "String"), ("INTEGER", "Int"),
   ("BIGINT", "Int"), ("FLOAT", "Float"), ("DOUBLE", "Float"),
   ("DECIMAL", "Float"), ("BOOLEAN", "Boolean"), ("DATE", "String"),
   ("DATEONLY", "String"), ("TIME", "String"), ("JSON", "JSON"),
   ("JSONB", "JSON"), ("UUID", "String"), ("ENUM", "String")]

/-- Base scalar of `getGraphQLType`: `String` when the attribute carries no
type, else the table lookup with `String` fallback. -/
def sgBaseType (attr : AttrDef) : String :=
  match attr.typeKey with
  | some k => (alookup sgTypeMap k).getD "String"
  | none => "String"

/-- The non-null test of `getGraphQLType`:
`!fieldConfig.nullable && !attribute.allowNull` (JS truthiness — an absent
flag counts as falsy). -/
def sgNonNull (attr : AttrDef) (fc : GQLFieldConfig) : Bool :=
  !(fc.nullable.getD false) && !(attr.allowNull.getD false)

/-- Embeds `getGraphQLType` of `GraphQLSchemaGenerator`: custom type verbatim, else
base scalar with list brackets and the `sgNonNull`-controlled `!` suffix. -/
def sg_getGraphQLType (attr : AttrDef) (fc : GQLFieldConfig) : String :=
  match fc.customType with
  | some ct => ct
  | none =>
    let baseType := sgBaseType attr
    let withList := if fc.list.getD false then "[" ++ baseType ++ "]" else baseType
    if sgNonNull attr fc then withList ++ "!" else withList

/-- Embeds `getAssociationType` of `GraphQLSchemaGenerator`: target name (bracketed
for the to-many kinds), never a non-null marker; `null` for an unknown kind
or missing target. -/
def sg_getAssociationType (assoc : AssocDef) : Option String :=
  match assoc.targetName with
  | none => none
  | some targetModel =>
    if assoc.associationType == "HasOne" || assoc.associationType == "BelongsTo" then
      some targetModel
    else if assoc.associationType == "HasMany" ||
        assoc.associationType == "BelongsToMany" then
      some ("[" ++ targetModel ++ "]")
    else none

/-- Embeds `model.findByPk(id)` over an explicit table (`null` id finds nothing). -/
def sgFindByPk (db : List Row) (id : Option JsonV) : Option Row :=
  match id with
  | none => none
  | some v => db.find? (fun r => olookup r "id" == some v)

/-- The `update<TypeName>` resolver of `GraphQLSchemaGenerator`: throws
`"<TypeName> not found"` when the row is absent, else updates and returns it. -/
def sgUpdateResolver (typeName : String) (db : List Row) (id : String)
    (input : Obj) : Except String Row :=
  match sgFindByPk db (some (.str id)) with
  | none => .error (typeName ++ " not found")
  | some row => .ok (spreadObj row input)

/-- The `delete<TypeName>` resolver of `GraphQLSchemaGenerator`: throws
`"<TypeName> not found"` when the row is absent, else destroys and returns
`true`. -/
def sgDeleteResolver (typeName : String) (db : List Row) (id : String) :
    Except String Bool :=
  match sgFindByPk db (some (.str id)) with
  | none => .error (typeName ++ " not found")
  | some _ => .ok true

/-- JS truthiness of a property value (`!parent[assocName]`). -/
def jsTruthy : Option JsonV → Bool
  | none => false
  | some .null => false
  | some (.bool b) => b
  | some (.num n) => n != 0
  | some (.str s) => s != ""

/-- The association field resolver of `GraphQLSchemaGenerator`: return the
parent's value when truthy, else re-fetch the owner by primary key with the
association included and return the loaded value. -/
def sgAssocResolver (assocName : String) (db : List Row) (parent : Obj) :
    Option JsonV :=
  if jsTruthy (olookup parent assocName) then olookup parent assocName
  else
    match sgFindByPk db (olookup parent "id") with
    | none => none
    | some inst => olookup inst assocName

/-! ## Claim theorems -/

/-- C1: the claim states the generated create resolver executes the ORM create
with the caller-supplied input, so the created row carries the input's fields.
The code instead declares `let _input = null`, never assigns it, and calls
`ModelClass.create(_input)`: on a mutation-enabled model without auth, creating
with input `{title: "hello"}` issues `create(null)` — the input object is
dropped before it ever reaches the ORM. -/
theorem c1_create_resolver_drops_input :
    createMutationResolver ⟨true, none, []⟩ "req" [("title", .str "hello")]
      = (.ok none, [OrmCall.create none]) ∧
    OrmCall.create none ≠ OrmCall.create (some [("title", JsonV.str "hello")]) :=
  ⟨rfl, by decide⟩

/-- C2: on a model whose metadata has `authRequired` but no `authHandler`,
every generated CRUD resolver (single query, list query, create, update,
delete) fails with "Access denied" and performs no ORM call. -/
theorem c2_authRequired_without_handler_denies (env : ResolverEnv)
    (c : GQLModelConfig) (req : Request) (id : String) (whereArg : Obj)
    (input : Obj) (limit offset : Option Int) (order : Option String)
    (hc : env.cfg = some c) (hreq : c.authRequired = true)
    (hh : c.authHandler = none) (hm : env.modelClassFound = true) :
    queryResolver env req id = (.error "Access denied", []) ∧
    listQueryResolver env req whereArg limit offset order
      = (.error "Access denied", []) ∧
    createMutationResolver env req input = (.error "Access denied", []) ∧
    updateMutationResolver env req id input = (.error "Access denied", []) ∧
    deleteMutationResolver env req id = (.error "Access denied", []) := by
  refine ⟨?_, ?_, ?_, ?_, ?_⟩ <;>
    simp [queryResolver, listQueryResolver, createMutationResolver,
      updateMutationResolver, deleteMutationResolver, applyAuth,
      createAuthCheck, hm, hc, hreq, hh]

/-- Witness for C2 at a concrete environment. -/
theorem c2_witness :
    queryResolver ⟨true, some { authRequired := true }, []⟩ "r" "1"
      = (.error "Access denied", []) ∧
    listQueryResolver ⟨true, some { authRequired := true }, []⟩ "r" [] none none none
      = (.error "Access denied", []) ∧
    createMutationResolver ⟨true, some { authRequired := true }, []⟩ "r" []
      = (.error "Access denied", []) ∧
    updateMutationResolver ⟨true, some { authRequired := true }, []⟩ "r" "1" []
      = (.error "Access denied", []) ∧
    deleteMutationResolver ⟨true, some { authRequired := true }, []⟩ "r" "1"
      = (.error "Access denied", []) :=
  c2_authRequired_without_handler_denies
    ⟨true, some { authRequired := true }, []⟩ { authRequired := true }
    "r" "1" [] [] none none none rfl rfl rfl rfl

/-- C3: when the auth hook returns a structured success with a `where` object,
each filtering resolver (single query, list query, update, delete) hands the
ORM the shallow merge of the caller-derived conditions with the hook's
`where`, and on any key collision the hook's value wins (`olookup` of the
merged conditions prefers the hook object). -/
theorem c3_hook_where_shallow_merge (env : ResolverEnv) (c : GQLModelConfig)
    (h : AuthHandler) (req : Request) (id : String) (whereArg : Obj)
    (wq wl wu wd : Obj) (aoq aol aou aod : Option (List String))
    (limit offset : Option Int) (order : Option String) (input : Obj)
    (hc : env.cfg = some c) (hreq : c.authRequired = true)
    (hh : c.authHandler = some h) (hm : env.modelClassFound = true)
    (hq : h req [("id", .str id)] .query = .result true (some wq) aoq)
    (hl : h req whereArg .query = .result true (some wl) aol)
    (hu : h req [("id", .str id)] .update = .result true (some wu) aou)
    (hd : h req [("id", .str id)] .delete = .result true (some wd) aod) :
    (queryResolver env req id).2 = [.findOne (spreadObj [("id", .str id)] wq)] ∧
    (listQueryResolver env req whereArg limit offset order).2
      = [.findAll (spreadObj whereArg wl) (truthyInt limit) (truthyInt offset)
          (truthyStr order)] ∧
    (updateMutationResolver env req id input).2.head?
      = some (.findOne (spreadObj [("id", .str id)] wu)) ∧
    (deleteMutationResolver env req id).2.head?
      = some (.findOne (spreadObj [("id", .str id)] wd)) ∧
    (∀ k, olookup (spreadObj [("id", .str id)] wq) k =
      match olookup wq k with
      | some v => some v
      | none => olookup [("id", .str id)] k) ∧
    (∀ k, olookup (spreadObj whereArg wl) k =
      match olookup wl k with
      | some v => some v
      | none => olookup whereArg k) := by
  refine ⟨?_, ?_, ?_, ?_, fun k => olookup_spreadObj _ _ k,
    fun k => olookup_spreadObj _ _ k⟩
  · simp [queryResolver, applyAuth, hm, hc, hreq, hh, hq]
  · simp [listQueryResolver, applyAuth, hm, hc, hreq, hh, hl]
  · cases hfind : findOneDb env.db (spreadObj [("id", .str id)] wu) <;>
      simp [updateMutationResolver, applyAuth, hm, hc, hreq, hh, hu, hfind]
  · cases hfind : findOneDb env.db (spreadObj [("id", .str id)] wd) <;>
      simp [deleteMutationResolver, applyAuth, hm, hc, hreq, hh, hd, hfind]

/-- A concrete hook returning `{success:true, where:{ownerId:"u1"}}`. -/
def ownerHook : AuthHandler :=
  fun _ _ _ => .result true (some [("ownerId", JsonV.str "u1")]) none

/-- A concrete auth-requiring model configuration using `ownerHook`. -/
def ownerConfig : GQLModelConfig :=
  { authRequired := true, authHandler := some ownerHook }

/-- A concrete resolver environment for `ownerConfig` over an empty table. -/
def ownerEnv : ResolverEnv := ⟨true, some ownerConfig, []⟩

/-- Witness for C3: the hook's `where` is merged into the conditions, and on
the colliding key `ownerId` the hook's value wins over the caller's. -/
theorem c3_witness :
    (queryResolver ownerEnv "r" "5").2
      = [.findOne (spreadObj [("id", .str "5")] [("ownerId", JsonV.str "u1")])] ∧
    (listQueryResolver ownerEnv "r" [("ownerId", JsonV.str "intruder")]
        none none none).2
      = [.findAll (spreadObj [("ownerId", JsonV.str "intruder")]
          [("ownerId", JsonV.str "u1")]) none none none] ∧
    olookup (spreadObj [("ownerId", JsonV.str "intruder")]
      [("ownerId", JsonV.str "u1")]) "ownerId" = some (JsonV.str "u1") := by
  have h := c3_hook_where_shallow_merge ownerEnv ownerConfig ownerHook
    "r" "5" [("ownerId", JsonV.str "intruder")]
    [("ownerId", JsonV.str "u1")] [("ownerId", JsonV.str "u1")]
    [("ownerId", JsonV.str "u1")] [("ownerId", JsonV.str "u1")]
    none none none none
    none none none []
    rfl rfl rfl rfl rfl rfl rfl rfl
  exact ⟨h.1, h.2.1, by decide⟩

/-- A model class that never ran the `@GQLModel` decorator (no metadata). -/
def ghostModel : ModelInput :=
  { name := "Ghost",
    rawAttributes := [("id", { typeKey := some "STRING", allowNull := some false })] }

/-- C4: the claim states a model with no model-level configuration attached is
kept out of the generated schema. In the code, `getGQLModelMetadata` falls
back to `{}` (a truthy object), so `addModel`'s `!modelConfig || exclude` test
never fires for an undecorated class: `Ghost`, registered with no metadata,
is stored, survives the generation filter, and receives root query and
mutation operations referencing it. -/
theorem c4_undecorated_model_enters_schema :
    (addModel {} ghostModel).models.map (fun p => p.1) = ["Ghost"] ∧
    (generatedModels (addModel {} ghostModel)).map (fun p => p.1) = ["Ghost"] ∧
    (generateResolverKeys (addModel {} ghostModel)).queryKeys
      = ["ghost", "ghostList"] ∧
    (generateResolverKeys (addModel {} ghostModel)).mutationKeys
      = ["createGhost", "updateGhost", "deleteGhost"] := by
  refine ⟨rfl, rfl, ?_, ?_⟩ <;> decide

/-- A resolver environment for a registered model with no metadata config
over an empty table. -/
def plainEnv : ResolverEnv := ⟨true, none, []⟩

/-- C5 counterexample: the claim states every generated update/delete resolver
throws a "not found" error when no row matches the id. The `GraphQLHelper`
update resolver instead resolves successfully to `null`, and the delete
resolver to `false`, on a not-found id `"7"` (empty table) — no error is
thrown. -/
theorem c5_counterexample_helper_not_found_no_throw :
    updateMutationResolver plainEnv "r" "7" [("title", .str "x")]
      = (.ok none, [.findOne [("id", .str "7")]]) ∧
    deleteMutationResolver plainEnv "r" "7"
      = (.ok false, [.findOne [("id", .str "7")]]) :=
  ⟨rfl, rfl⟩

/-- C5 amended: the `GraphQLSchemaGenerator` update/delete resolvers throw
`"<TypeName> not found"` on a missing row; the `GraphQLHelper` update/delete
resolvers instead return `null`/`false` without throwing; and for an unknown
model the `GraphQLHelper` resolvers degrade to `null`/`false` with no ORM
call. -/
theorem c5_amended_not_found_behavior (typeName : String) (db : List Row)
    (id : String) (input : Obj) (env env2 : ResolverEnv) (req : Request)
    (hnf : sgFindByPk db (some (.str id)) = none)
    (hm : env.modelClassFound = true) (hcfg : env.cfg = none)
    (hdb : findOneDb env.db [("id", .str id)] = none)
    (hm2 : env2.modelClassFound = false) :
    sgUpdateResolver typeName db id input = .error (typeName ++ " not found") ∧
    sgDeleteResolver typeName db id = .error (typeName ++ " not found") ∧
    updateMutationResolver env req id input
      = (.ok none, [.findOne [("id", .str id)]]) ∧
    deleteMutationResolver env req id
      = (.ok false, [.findOne [("id", .str id)]]) ∧
    updateMutationResolver env2 req id input = (.ok none, []) ∧
    deleteMutationResolver env2 req id = (.ok false, []) := by
  refine ⟨?_, ?_, ?_, ?_, ?_, ?_⟩ <;>
    simp [sgUpdateResolver, sgDeleteResolver, updateMutationResolver,
      deleteMutationResolver, applyAuth, hnf, hm, hcfg, hdb, hm2]

/-- Witness for C5 (amended) at an empty table and id `"7"`. -/
theorem c5_amended_witness :
    sgUpdateResolver "Post" [] "7" [("title", .str "x")]
      = .error ("Post" ++ " not found") ∧
    sgDeleteResolver "Post" [] "7" = .error ("Post" ++ " not found") ∧
    updateMutationResolver plainEnv "r" "7" [("title", .str "x")]
      = (.ok none, [.findOne [("id", .str "7")]]) ∧
    deleteMutationResolver plainEnv "r" "7"
      = (.ok false, [.findOne [("id", .str "7")]]) ∧
    updateMutationResolver ⟨false, none, []⟩ "r" "7" [("title", .str "x")]
      = (.ok none, []) ∧
    deleteMutationResolver ⟨false, none, []⟩ "r" "7" = (.ok false, []) :=
  c5_amended_not_found_behavior "Post" [] "7" [("title", .str "x")]
    plainEnv ⟨false, none, []⟩ "r" rfl rfl rfl rfl rfl

/-- C6: a field name matching the blacklist at any granularity (exact
`Model.field`, bare field name, or bare model name) is absent from the fields
rendered into the model's object type and into its input type. -/
theorem c6_blacklisted_field_absent (st : HelperState) (model : SequelizeModel)
    (fieldName : String)
    (hb : isFieldBlacklisted st.blackList model.name fieldName = true) :
    fieldName ∉ (modelTypeFields st model).map (fun f => f.name) ∧
    fieldName ∉ (modelInputFields st model).map (fun f => f.name) := by
  constructor
  · intro hmem
    obtain ⟨f, hf, hfn⟩ := List.mem_map.mp hmem
    have hp := List.of_mem_filter hf
    simp [hfn, hb] at hp
  · intro hmem
    obtain ⟨f, hf, hfn⟩ := List.mem_map.mp hmem
    have hp := List.of_mem_filter hf
    simp [hfn, hb] at hp

/-- A decorated `Post` model with `id`, `title`, `authorId` attributes. -/
def postModel : ModelInput :=
  { name := "Post",
    rawAttributes :=
      [("id", { typeKey := some "STRING", allowNull := some false }),
       ("title", { typeKey := some "STRING", allowNull := some true }),
       ("authorId", { typeKey := some "STRING", allowNull := some true })],
    metadata := some {} }

/-- The stored `SequelizeModel` record for `postModel`. -/
def postSeq : SequelizeModel :=
  { name := "Post",
    attributes :=
      [("id", { typeKey := some "STRING", allowNull := some false }),
       ("title", { typeKey := some "STRING", allowNull := some true }),
       ("authorId", { typeKey := some "STRING", allowNull := some true })],
    associations := [],
    tableName := "post",
    primaryKeyAttribute := "id" }

/-- Helper state with `Post` registered and `"Post.title"` blacklisted. -/
def blogSt : HelperState := addToBlackList (addModel {} postModel) "Post.title"

/-- Witness for C6: blacklisting `"Post.title"` removes `title` from both the
`Post` type fields and the `PostInput` fields. -/
theorem c6_witness :
    "title" ∉ (modelTypeFields blogSt postSeq).map (fun f => f.name) ∧
    "title" ∉ (modelInputFields blogSt postSeq).map (fun f => f.name) :=
  c6_blacklisted_field_absent blogSt postSeq "title" (by decide)

theorem alookup_isSome_exists {α : Type} (l : List (String × α)) (k : String)
    (h : (alookup l k).isSome = true) : ∃ p ∈ l, p.1 = k := by
  induction l with
  | nil => simp [alookup] at h
  | cons p rest ih =>
      by_cases hp : p.1 = k
      · exact ⟨p, List.mem_cons_self p rest, hp⟩
      · simp [alookup, hp] at h
        obtain ⟨q, hq, hk⟩ := ih h
        exact ⟨q, List.mem_cons_of_mem p hq, hk⟩

/-- C7: with a non-empty whitelist, a registered model not on it is skipped by
the one model list every generation loop (types, inputs, root operations,
resolver entries) iterates; `getSchema` leaves the helper state untouched;
and under a later whitelist containing the name the model reappears in
generation. -/
theorem c7_whitelist_skips_generation_only (st : HelperState) (name : String)
    (wl2 : List String)
    (hne : st.whiteList ≠ []) (hnot : st.whiteList.contains name = false)
    (hreg : (alookup st.models name).isSome = true)
    (hwl2 : wl2.contains name = true) :
    name ∉ (generatedModels st).map (fun p => p.1) ∧
    (getSchema st).2 = st ∧
    name ∈ (generatedModels { st with whiteList := wl2 }).map (fun p => p.1) := by
  refine ⟨?_, rfl, ?_⟩
  · intro hmem
    obtain ⟨p, hp, hpn⟩ := List.mem_map.mp hmem
    have hpass := List.of_mem_filter hp
    simp [whitelistPass, hpn] at hpass
    rcases hpass with h1 | h2
    · exact hne h1
    · simp at hnot
      exact hnot h2
  · obtain ⟨p, hp, hpn⟩ := alookup_isSome_exists st.models name hreg
    refine List.mem_map.mpr ⟨p, List.mem_filter.mpr ⟨hp, ?_⟩, hpn⟩
    simp [whitelistPass, hpn]
    simp at hwl2
    exact Or.inr hwl2

/-- Witness for C7: `Post` registered but only `Other` whitelisted; `Post` is
skipped, the state is unchanged, and `Post` reappears once whitelisted. -/
theorem c7_witness :
    "Post" ∉ (generatedModels (addToWhiteList (addModel {} postModel) "Other")).map
      (fun p => p.1) ∧
    (getSchema (addToWhiteList (addModel {} postModel) "Other")).2
      = addToWhiteList (addModel {} postModel) "Other" ∧
    "Post" ∈ (generatedModels
      { addToWhiteList (addModel {} postModel) "Other" with
          whiteList := ["Other", "Post"] }).map (fun p => p.1) :=
  c7_whitelist_skips_generation_only
    (addToWhiteList (addModel {} postModel) "Other") "Post" ["Other", "Post"]
    (by decide) (by decide) (by decide) (by decide)

/-- An attribute with an explicit `allowNull: true`. -/
def attrAllowNullTrue : AttrDef := { typeKey := some "STRING", allowNull := some true }

/-- An attribute whose `allowNull` flag was never set. -/
def attrAllowNullUnset : AttrDef := { typeKey := some "STRING" }

/-- A field config with an explicit `nullable: false`. -/
def fcNullableFalse : GQLFieldConfig := { nullable := some false }

/-- A `BelongsTo User` association descriptor. -/
def belongsToUser : AssocDef := { targetName := some "User", associationType := "BelongsTo" }

/-- C8 counterexample: the claim states an explicit field-config `nullable`
always wins. In `GraphQLSchemaGenerator.getGraphQLType` the non-null marker
requires `!fieldConfig.nullable && !attribute.allowNull`, so an explicit
`nullable: false` on an attribute with `allowNull: true` still produces the
nullable `String`, not `String!`. -/
theorem c8_counterexample_sg_explicit_nullable_ignored :
    sg_getGraphQLType attrAllowNullTrue fcNullableFalse = "String" ∧
    sg_getGraphQLType attrAllowNullTrue fcNullableFalse ≠ "String!" :=
  ⟨rfl, by decide⟩

/-- C8 amended: in `GraphQLHelper` the claimed rules hold (explicit config
wins; attributes are non-null exactly when `allowNull` is the explicit
`false`; `BelongsTo` associations are non-null, other kinds nullable). In
`GraphQLSchemaGenerator`, an attribute field is non-null exactly when both
the config's `nullable` and the attribute's `allowNull` are falsy (so an
explicit `nullable: false` does not alone force non-null, and an unset
`allowNull` counts towards non-null), and association fields never carry the
non-null marker. -/
theorem c8_amended_nullability_rules (name : String) (attr : AttrDef)
    (fc : GQLFieldConfig) (assoc : AssocDef) (t : String) (b : Bool) :
    ((convertSequelizeAttributeToGraphQLField name attr (some fc)).isNullable
      = match fc.nullable with
        | some bb => bb
        | none => !(attr.allowNull == some false)) ∧
    ((convertSequelizeAttributeToGraphQLField name attr none).isNullable
      = !(attr.allowNull == some false)) ∧
    (assoc.targetName = some t → fc.nullable = none →
      (convertSequelizeAssociationToGraphQLField name assoc (some fc)).map
        (fun f => f.isNullable)
        = some (!(assoc.associationType == "BelongsTo"))) ∧
    (assoc.targetName = some t → fc.nullable = some b →
      (convertSequelizeAssociationToGraphQLField name assoc (some fc)).map
        (fun f => f.isNullable) = some b) ∧
    (fc.customType = none → fc.nullable = some false → attr.allowNull = some true →
      sg_getGraphQLType attr fc
        = if fc.list.getD false then "[" ++ sgBaseType attr ++ "]"
          else sgBaseType attr) ∧
    (fc.customType = none → fc.nullable = none → attr.allowNull = none →
      sg_getGraphQLType attr fc
        = (if fc.list.getD false then "[" ++ sgBaseType attr ++ "]"
           else sgBaseType attr) ++ "!") ∧
    (∀ s, sg_getAssociationType assoc = some s → assoc.targetName = some t →
      s = t ∨ s = "[" ++ t ++ "]") := by
  refine ⟨?_, ?_, ?_, ?_, ?_, ?_, ?_⟩
  · cases hn : fc.nullable <;>
      simp [convertSequelizeAttributeToGraphQLField, hn]
  · simp [convertSequelizeAttributeToGraphQLField]
  · intro ht hn
    simp [convertSequelizeAssociationToGraphQLField, ht, hn]
  · intro ht hn
    simp [convertSequelizeAssociationToGraphQLField, ht, hn]
  · intro hct hn hall
    simp [sg_getGraphQLType, sgNonNull, hct, hn, hall]
  · intro hct hn hall
    simp [sg_getGraphQLType, sgNonNull, hct, hn, hall]
  · intro s hs ht
    simp only [sg_getAssociationType, ht] at hs
    split at hs
    · exact Or.inl (Option.some.inj hs).symm
    · split at hs
      · exact Or.inr (Option.some.inj hs).symm
      · exact absurd hs (by simp)

/-- Witness for C8 (amended): concrete evaluations of both generators'
nullability decisions. -/
theorem c8_amended_witness :
    (convertSequelizeAttributeToGraphQLField "f" attrAllowNullTrue
      (some fcNullableFalse)).isNullable = false ∧
    (convertSequelizeAttributeToGraphQLField "f" attrAllowNullTrue
      none).isNullable = true ∧
    (convertSequelizeAssociationToGraphQLField "author" belongsToUser
      (some {})).map (fun f => f.isNullable) = some false ∧
    sg_getGraphQLType attrAllowNullTrue fcNullableFalse = "String" ∧
    sg_getGraphQLType attrAllowNullUnset {} = "String!" := by
  have h1 := c8_amended_nullability_rules "f" attrAllowNullTrue
    fcNullableFalse belongsToUser "User" false
  have h2 := c8_amended_nullability_rules "author" attrAllowNullUnset
    {} belongsToUser "User" false
  refine ⟨h1.1.trans (by decide), h1.2.1.trans (by decide),
    (h2.2.2.1 rfl rfl).trans (by decide),
    (h1.2.2.2.2.1 rfl rfl rfl).trans (by decide),
    (h2.2.2.2.2.2.1 rfl rfl rfl).trans (by decide)⟩

/-- C9 counterexample: the claim states every generated association field
resolver re-fetches when the parent lacks the related data and never returns
`undefined` merely because it was not eager-loaded. The `GraphQLHelper`
association resolver returns `parent[assocName]` verbatim — `undefined`
(`none`) for a parent without the eager-loaded value — even when the related
data is available in the table, as the `GraphQLSchemaGenerator` resolver
demonstrates on the same input. -/
theorem c9_counterexample_helper_no_lazy_fetch :
    helperAssocResolver "author" [("id", .str "1")] = none ∧
    sgAssocResolver "author" [[("id", .str "1"), ("author", .str "alice")]]
      [("id", .str "1")] = some (.str "alice") :=
  ⟨rfl, rfl⟩

/-- C9 amended: the `GraphQLSchemaGenerator` association resolver behaves as
claimed — parent value when truthy, else a primary-key re-fetch with the
association included (and `undefined` only when the owner row itself is
gone) — while the `GraphQLHelper` association resolver always returns the
parent's value and hence `undefined` whenever the data was not eager-loaded. -/
theorem c9_amended_assoc_resolver_behavior (assocName : String) (db : List Row)
    (parent inst : Obj) :
    (jsTruthy (olookup parent assocName) = true →
      sgAssocResolver assocName db parent = olookup parent assocName) ∧
    (jsTruthy (olookup parent assocName) = false →
      sgFindByPk db (olookup parent "id") = some inst →
      sgAssocResolver assocName db parent = olookup inst assocName) ∧
    (jsTruthy (olookup parent assocName) = false →
      sgFindByPk db (olookup parent "id") = none →
      sgAssocResolver assocName db parent = none) ∧
    helperAssocResolver assocName parent = olookup parent assocName ∧
    (olookup parent assocName = none →
      helperAssocResolver assocName parent = none) := by
  refine ⟨?_, ?_, ?_, rfl, ?_⟩
  · intro ht
    simp [sgAssocResolver, ht]
  · intro ht hf
    simp [sgAssocResolver, ht, hf]
  · intro ht hf
    simp [sgAssocResolver, ht, hf]
  · intro hnone
    simp [helperAssocResolver, hnone]

/-- Witness for C9 (amended): lazy re-fetch succeeds for the schema-generator
resolver while the helper resolver yields `undefined` on the same parent. -/
theorem c9_amended_witness :
    sgAssocResolver "author" [[("id", .str "1"), ("author", .str "alice")]]
      [("id", .str "1")]
      = olookup [("id", JsonV.str "1"), ("author", JsonV.str "alice")] "author" ∧
    helperAssocResolver "author" [("id", JsonV.str "1")] = none := by
  have h := c9_amended_assoc_resolver_behavior "author"
    [[("id", .str "1"), ("author", .str "alice")]] [("id", .str "1")]
    [("id", .str "1"), ("author", .str "alice")]
  exact ⟨h.2.1 (by decide) rfl, h.2.2.2.2 rfl⟩

/-- C10 counterexample: the claim states that for a model whose metadata has
no operations object all three operation groups are enabled together with
their resolvers. The subscription fields are indeed generated by default,
but `generateResolvers` never installs per-model subscription resolvers:
for registered `Post` the Subscription resolver map stays empty. -/
theorem c10_counterexample_no_subscription_resolvers :
    modelSubscriptionFieldsStr (addModel {} postModel) "Post"
      = "  postCreated: Post\n  postUpdated: Post\n  postDeleted(id: String!): Post\n" ∧
    (generateResolverKeys (addModel {} postModel)).subscriptionKeys = [] := by
  constructor <;> decide

/-- C10 amended: a registered model whose metadata lacks an operations object
defaults to `{query:true, mutation:true, subscription:true}`: the single and
list query fields, the create/update/delete mutation fields and the
subscription fields are all generated, and the query and mutation resolver
keys are installed (mutations exposed by default) — but no per-model
subscription resolver is ever generated. -/
theorem c10_amended_default_operations (st : HelperState) (name : String)
    (cfg : GQLModelConfig) (fcs : List (String × GQLFieldConfig))
    (hmeta : alookup st.modelMetadata name = some (cfg, fcs))
    (hops : cfg.operations = none) :
    effectiveOperations st name = ⟨true, true, true⟩ ∧
    modelQueryKeys st name = [lowerFirst name, lowerFirst name ++ "List"] ∧
    modelMutationKeys st name
      = ["create" ++ name, "update" ++ name, "delete" ++ name] ∧
    modelQueryFieldsStr st name
      = "  " ++ lowerFirst name ++ "(id: String!): " ++ name ++ "\n" ++
        "  " ++ lowerFirst name ++
        "List(where: JSON, limit: Int, offset: Int, order: String): [" ++
        name ++ "]\n" ∧
    modelMutationFieldsStr st name
      = "  create" ++ name ++ "(input: " ++ name ++ "Input!): " ++ name ++ "\n" ++
        "  update" ++ name ++ "(id: String!, input: " ++ name ++ "Input!): " ++
        name ++ "\n" ++
        "  delete" ++ name ++ "(id: String!): Boolean\n" ∧
    modelSubscriptionFieldsStr st name
      = "  " ++ lowerFirst name ++ "Created: " ++ name ++ "\n" ++
        "  " ++ lowerFirst name ++ "Updated: " ++ name ++ "\n" ++
        "  " ++ lowerFirst name ++ "Deleted(id: String!): " ++ name ++ "\n" ∧
    (∀ st2 : HelperState, st2.customResolvers = [] →
      st2.customSubscriptions = [] →
      (generateResolverKeys st2).subscriptionKeys = []) := by
  refine ⟨?_, ?_, ?_, ?_, ?_, ?_, ?_⟩
  · simp [effectiveOperations, hmeta, hops]
  · simp [modelQueryKeys, effectiveOperations, hmeta, hops]
  · simp [modelMutationKeys, effectiveOperations, hmeta, hops]
  · simp [modelQueryFieldsStr, effectiveOperations, hmeta, hops]
  · simp [modelMutationFieldsStr, effectiveOperations, hmeta, hops]
  · simp [modelSubscriptionFieldsStr, effectiveOperations, hmeta, hops]
  · intro st2 h1 h2
    simp [generateResolverKeys, h1, h2]

/-- Witness for C10 (amended) on registered `Post` with empty metadata. -/
theorem c10_amended_witness :
    effectiveOperations (addModel {} postModel) "Post" = ⟨true, true, true⟩ ∧
    modelMutationKeys (addModel {} postModel) "Post"
      = ["createPost", "updatePost", "deletePost"] ∧
    (generateResolverKeys (addModel {} postModel)).subscriptionKeys = [] := by
  have h := c10_amended_default_operations (addModel {} postModel) "Post" {} [] rfl rfl
  exact ⟨h.1, h.2.2.1.trans (by decide),
    h.2.2.2.2.2.2 (addModel {} postModel) rfl rfl⟩

end AppGraphQL
